import Mathlib

/-
Verification development for the ZombieSurSim survival-simulation core
(src/tgame4.cpp).  The C++ simulation is shallowly embedded: floats become
rationals, the binary save file becomes a list of typed field tokens, and
the per-frame simulation step (RunMainGame's PLAYING branch) becomes a pure
transition function on an explicit run-state record.  Geometry that feeds
the combat logic only through boolean intersection tests (SDL_HasIntersection
results, the player's fall-out test) is supplied per tick as oracle inputs,
while the full kinematic integrator and playfield clamp of PhysicsEntity
are embedded directly.
-/

namespace ZSim

/-- Screen and game constants from tgame4.cpp lines 14-25. -/
def SCREEN_WIDTH : Int := 800

def SCREEN_HEIGHT : Int := 600

def TILE_SIZE : Int := 32

def GRAVITY : ℚ := 1/2

def JUMP_FORCE : ℚ := -13

def PLAYER_ACCEL : ℚ := 4/5

def FRICTION : ℚ := 7/10

def MAX_SPEED : ℚ := 5

/-- Combat constants from RunMainGame, tgame4.cpp lines 659-664. -/
def ATTACK_COOLDOWN : ℚ := 1/2

def MELEE_DAMAGE : Int := 25

def MAX_ZOMBIES_ONSCREEN : Nat := 5

def ZOMBIES_PER_WAVE : List Int := [15, 20, 25, 30, 35]

def TOTAL_WAVES : Int := 5

/-- Vector2D (tgame4.cpp lines 28-34): 2D position/velocity over exact
rationals standing for the C++ floats. -/
structure Vector2D where
  x : ℚ
  y : ℚ
deriving DecidableEq, Repr

/-- Zombie::Type (tgame4.cpp line 234). -/
inductive ZType
  | ATTACK
  | TANK
deriving DecidableEq, Repr

/-- Per-type speed set in the Zombie constructor (line 245). -/
def ZType.speed : ZType → ℚ
  | .ATTACK => 2
  | .TANK => 1/2

/-- Per-type contact damage set in the Zombie constructor (line 246). -/
def ZType.damage : ZType → Int
  | .ATTACK => 5
  | .TANK => 10

/-- Per-type initial health set in the Zombie constructor (line 247). -/
def ZType.initHealth : ZType → Int
  | .ATTACK => 50
  | .TANK => 100

/-- Enum value of a Zombie::Type, as written by saveGameState (line 447). -/
def ZType.toInt : ZType → Int
  | .ATTACK => 0
  | .TANK => 1

/-- static_cast of an int back to Zombie::Type as in loadGameState
(line 480); values outside the enum are not produced by the game's own
saves, they are mapped to ATTACK here. -/
def intToZType (v : Int) : ZType :=
  if v = 1 then ZType.TANK else ZType.ATTACK

/-- GameState (tgame4.cpp lines 417-430): the persisted run snapshot.
Zombies are stored as (x, y, type) triples; Pickups (Food) have no field
here, matching the C++ struct, so they are not persisted in either
direction. -/
structure GameState where
  playerPos : Vector2D
  playerVel : Vector2D
  playerHealth : Int
  score : Int
  startTime : ℚ
  isValid : Bool
  zombies : List (ℚ × ℚ × ZType)
  wave : Int
  zombiesToSpawn : Int
  waveZombiesRemaining : Int
  weatherType : Int
deriving DecidableEq, Repr

/-- One binary field of the save file, abstracted to a typed token: float,
int, double, bool, or size_t, in the byte layout order that
saveGameState/loadGameState use. -/
inductive SaveTok
  | f (v : ℚ)
  | i (v : Int)
  | d (v : ℚ)
  | b (v : Bool)
  | sz (v : Nat)
deriving DecidableEq, Repr

/-- Indeterminate values: C++ reads some fields into uninitialized locals
(GameState's playerHealth/score/startTime are not in the constructor's
init list; zombieCount and the per-zombie locals in loadGameState are
plain stack variables).  When a read fails these keep whatever garbage was
there; the model makes that garbage an explicit parameter. -/
structure Junk where
  ph : Int
  score : Int
  startTime : ℚ
  x : ℚ
  y : ℚ
  ty : Int
  count : Nat
deriving DecidableEq, Repr

/-- Default-constructed GameState (line 429) with the indeterminate int
members supplied by `junk`. -/
def defaultGameState (junk : Junk) : GameState :=
  ⟨⟨0, 0⟩, ⟨0, 0⟩, junk.ph, junk.score, junk.startTime, false, [], 1, 15, 0, 0⟩

/-- ifstream state: remaining tokens plus the failbit. -/
structure PS where
  toks : List SaveTok
  fail : Bool
deriving DecidableEq, Repr

/-- Read one float field: after a failed read the stream stays failed and
the destination keeps its old value, as ifstream::read does. -/
def readF (st : PS) (old : ℚ) : ℚ × PS :=
  if st.fail then (old, st)
  else
    match st.toks with
    | SaveTok.f v :: rest => (v, ⟨rest, false⟩)
    | _ => (old, ⟨st.toks, true⟩)

/-- Read one int field. -/
def readI (st : PS) (old : Int) : Int × PS :=
  if st.fail then (old, st)
  else
    match st.toks with
    | SaveTok.i v :: rest => (v, ⟨rest, false⟩)
    | _ => (old, ⟨st.toks, true⟩)

/-- Read one double field. -/
def readD (st : PS) (old : ℚ) : ℚ × PS :=
  if st.fail then (old, st)
  else
    match st.toks with
    | SaveTok.d v :: rest => (v, ⟨rest, false⟩)
    | _ => (old, ⟨st.toks, true⟩)

/-- Read one bool field. -/
def readB (st : PS) (old : Bool) : Bool × PS :=
  if st.fail then (old, st)
  else
    match st.toks with
    | SaveTok.b v :: rest => (v, ⟨rest, false⟩)
    | _ => (old, ⟨st.toks, true⟩)

/-- Read one size_t field. -/
def readSz (st : PS) (old : Nat) : Nat × PS :=
  if st.fail then (old, st)
  else
    match st.toks with
    | SaveTok.sz v :: rest => (v, ⟨rest, false⟩)
    | _ => (old, ⟨st.toks, true⟩)

/-- Token encoding of one zombie entry as written by saveGameState
(lines 444-451): x, y, then the type as an int. -/
def encZombie (z : ℚ × ℚ × ZType) : List SaveTok :=
  [SaveTok.f z.1, SaveTok.f z.2.1, SaveTok.i (ZType.toInt z.2.2)]

/-- saveGameState (tgame4.cpp lines 433-458): the exact field order of the
binary record, as a token list (the file's content when it opens). -/
def saveGameState (g : GameState) : List SaveTok :=
  SaveTok.f g.playerPos.x :: SaveTok.f g.playerPos.y ::
  SaveTok.f g.playerVel.x :: SaveTok.f g.playerVel.y ::
  SaveTok.i g.playerHealth :: SaveTok.i g.score ::
  SaveTok.d g.startTime :: SaveTok.b g.isValid ::
  SaveTok.sz g.zombies.length ::
  (g.zombies.flatMap encZombie ++
    [SaveTok.i g.wave, SaveTok.i g.zombiesToSpawn,
     SaveTok.i g.waveZombiesRemaining, SaveTok.i g.weatherType])

/-- The zombie-reading loop of loadGameState (lines 471-481): reads
`n` (x, y, type) triples, with the per-iteration locals keeping junk on a
failed read. -/
def readZombies : Nat → PS → Junk → List (ℚ × ℚ × ZType) × PS
  | 0, st, _ => ([], st)
  | n + 1, st, junk =>
    let rx := readF st junk.x
    let ry := readF rx.2 junk.y
    let rt := readI ry.2 junk.ty
    let rr := readZombies n rt.2 junk
    ((rx.1, ry.1, intToZType rt.1) :: rr.1, rr.2)

/-- The body of loadGameState's is_open branch (lines 465-487) minus the
final overwrite of isValid: returns the state read so far together with the
stream's failbit after the last read. -/
def loadGameStateAux (toks : List SaveTok) (junk : Junk) : GameState × Bool :=
  let st0 : PS := ⟨toks, false⟩
  let r1 := readF st0 0
  let r2 := readF r1.2 0
  let r3 := readF r2.2 0
  let r4 := readF r3.2 0
  let r5 := readI r4.2 junk.ph
  let r6 := readI r5.2 junk.score
  let r7 := readD r6.2 junk.startTime
  let r8 := readB r7.2 false
  let r9 := readSz r8.2 junk.count
  let rz := readZombies r9.1 r9.2 junk
  let r10 := readI rz.2 1
  let r11 := readI r10.2 15
  let r12 := readI r11.2 0
  let r13 := readI r12.2 0
  (⟨⟨r1.1, r2.1⟩, ⟨r3.1, r4.1⟩, r5.1, r6.1, r7.1, r8.1, rz.1,
    r10.1, r11.1, r12.1, r13.1⟩, r13.2.fail)

/-- loadGameState (tgame4.cpp lines 461-490).  `none` models a file that
failed to open: the default-constructed state (isValid false) is returned.
When the file opens, the fields are read in save order and then
`state.isValid = true` is executed unconditionally (line 487), whether or
not the reads succeeded. -/
def loadGameState (file : Option (List SaveTok)) (junk : Junk) : GameState :=
  match file with
  | none => defaultGameState junk
  | some toks => { (loadGameStateAux toks junk).1 with isValid := true }

/-- Live zombie state as the combat/wave logic sees it: variant, health and
the contact-damage timestamp (Zombie fields, tgame4.cpp lines 232-248).
Position/velocity feed the logic only through per-tick intersection tests,
which are oracle inputs of the tick. -/
structure ZState where
  ty : ZType
  health : Int
  lastDamageTime : ℚ
deriving DecidableEq, Repr

/-- A freshly constructed zombie (Zombie constructor, lines 241-248):
type-dependent health, lastDamageTime 0. -/
def freshZombie (ty : ZType) : ZState :=
  ⟨ty, ty.initHealth, 0⟩

/-- Live food/pickup state as the pickup logic sees it: the spawn
timestamp (Food, tgame4.cpp lines 340-351). -/
structure FState where
  spawnTime : ℚ
deriving DecidableEq, Repr

/-- GameScreenState (tgame4.cpp line 695). -/
inductive GS
  | PLAYING
  | PAUSED
  | GAME_OVER
  | VICTORY
deriving DecidableEq, Repr

/-- The mutable run state of RunMainGame (locals of lines 649-698) that the
simulation logic reads and writes.  Entity positions are not carried here:
they influence the logic only through the boolean intersection oracles of
`TickEnv`, and the kinematics themselves are embedded separately as
`PEnt.update`. -/
structure RunState where
  playerVel : Vector2D
  playerOnGround : Bool
  jumping : Bool
  playerHealth : Int
  score : Int
  zombies : List ZState
  foods : List FState
  attacking : Bool
  lastAttackTime : ℚ
  wave : Int
  zombiesToSpawn : Int
  waveZombiesRemaining : Int
  gameState : GS
  highScore : Int
deriving DecidableEq, Repr

/-- Initial run state (lines 649-698): health 100, wave 1, 15 zombies to
spawn, no live zombies or foods, PLAYING. -/
def initState : RunState :=
  ⟨⟨0, 0⟩, false, false, 100, 0, [], [], false, 0, 1, 15, 0, GS.PLAYING, 0⟩

/-- Per-tick inputs: the clock sample, the random spawn type, and the
geometry oracles — for zombie index i whether its rect intersects the
player rect (SDL_HasIntersection, line 852) and the melee hitbox
(line 870), the 50% food-drop roll (spawnFood, line 578), for food index j
whether its rect intersects the player rect (line 903), and whether the
player fell below the screen (line 928). -/
structure TickEnv where
  t : ℚ
  spawnTy : ZType
  touch : Nat → Bool
  inMelee : Nat → Bool
  foodDrop : Nat → Bool
  foodTouch : Nat → Bool
  fellOut : Bool

/-- Pair each list element with its index starting at n. -/
def idxFrom (n : Nat) : List α → List (Nat × α)
  | [] => []
  | a :: l => (n, a) :: idxFrom (n + 1) l

/-- The contact-damage block (tgame4.cpp lines 852-858): if the rects
intersect and at least 1.0s elapsed since this zombie last dealt damage,
subtract its damage from the player's health (clamped below at 0) and
reset its damage timestamp. -/
def contactOnce (ph : Int) (z : ZState) (t : ℚ) (touch : Bool) : Int × ZState :=
  if touch ∧ t - z.lastDamageTime ≥ 1 then
    let ph1 := ph - z.ty.damage
    (if ph1 < 0 then 0 else ph1, { z with lastDamageTime := t })
  else (ph, z)

/-- The duplicated contact-damage check as it appears in the source: the
identical block runs twice in sequence (lines 852-858 and again 859-865). -/
def contactTwice (ph : Int) (z : ZState) (t : ℚ) (touch : Bool) : Int × ZState :=
  let r := contactOnce ph z t touch
  contactOnce r.1 r.2 t touch

/-- Result of the zombie loop: player health, surviving zombies in order,
score gained, zombies killed, foods spawned. -/
structure CombatRes where
  ph : Int
  zs : List ZState
  sc : Int
  kills : Nat
  nf : List FState
deriving DecidableEq, Repr

/-- The zombie loop of the tick (tgame4.cpp lines 849-891) over the indexed
zombie list: per zombie, the doubled contact-damage check, then — when the
attack flag is armed and the melee hitbox intersects — MELEE_DAMAGE is
applied once; a zombie whose health drops to 0 or below there is marked,
removed after the loop (lines 884-890), scores 100 and decrements the
wave-alive counter, and rolls a food drop at its position (line 874). -/
def combatLoop (t : ℚ) (attacking : Bool) (touch inMelee foodDrop : Nat → Bool) :
    Int → List (Nat × ZState) → CombatRes
  | ph, [] => ⟨ph, [], 0, 0, []⟩
  | ph, (i, z) :: rest =>
    let pz := contactTwice ph z t (touch i)
    let z2 := if attacking ∧ inMelee i then { pz.2 with health := pz.2.health - MELEE_DAMAGE } else pz.2
    let r := combatLoop t attacking touch inMelee foodDrop pz.1 rest
    if attacking ∧ inMelee i ∧ z2.health ≤ 0 then
      ⟨r.ph, r.zs, r.sc + 100, r.kills + 1, (if foodDrop i then [⟨t⟩] else []) ++ r.nf⟩
    else
      ⟨r.ph, z2 :: r.zs, r.sc, r.kills, r.nf⟩

/-- The food loop of the tick (tgame4.cpp lines 894-911) over the indexed
food list: expiry (age ≥ LIFETIME, line 897) is checked first and erases
the food with no health change; otherwise contact with the player restores
HEALTH_RESTORE clamped at 100 and erases the food; otherwise it is kept.
Each food is erased at most once per pass. -/
def foodLoop (t : ℚ) (foodTouch : Nat → Bool) :
    Int → List (Nat × FState) → Int × List FState
  | ph, [] => (ph, [])
  | ph, (j, fd) :: rest =>
    if t - fd.spawnTime ≥ 10 then foodLoop t foodTouch ph rest
    else if foodTouch j then
      let ph1 := ph + 20
      foodLoop t foodTouch (if ph1 > 100 then 100 else ph1) rest
    else
      let r := foodLoop t foodTouch ph rest
      (r.1, fd :: r.2)

/-- The spawn step (tgame4.cpp lines 841-845): admit one new zombie when
quota remains and the live count is below MAX_ZOMBIES_ONSCREEN, pushing it
at the back, decrementing the quota and incrementing the alive counter. -/
def spawnPhase (s : RunState) (ty : ZType) : RunState :=
  if 0 < s.zombiesToSpawn ∧ s.zombies.length < MAX_ZOMBIES_ONSCREEN then
    { s with zombies := s.zombies ++ [freshZombie ty],
             zombiesToSpawn := s.zombiesToSpawn - 1,
             waveZombiesRemaining := s.waveZombiesRemaining + 1 }
  else s

/-- The zombie loop applied to the run state, and the reset of the attack
flag (line 891). -/
def combatPhase (s : RunState) (env : TickEnv) : RunState :=
  let r := combatLoop env.t s.attacking env.touch env.inMelee env.foodDrop
    s.playerHealth (idxFrom 0 s.zombies)
  { s with playerHealth := r.ph, zombies := r.zs, score := s.score + r.sc,
           waveZombiesRemaining := s.waveZombiesRemaining - r.kills,
           foods := s.foods ++ r.nf, attacking := false }

/-- The food loop applied to the run state. -/
def foodPhase (s : RunState) (env : TickEnv) : RunState :=
  let r := foodLoop env.t env.foodTouch s.playerHealth (idxFrom 0 s.foods)
  { s with playerHealth := r.1, foods := r.2 }

/-- ZOMBIES_PER_WAVE[w - 1] lookup used after the wave increment
(line 916). -/
def quotaAt (w : Int) : Int :=
  ZOMBIES_PER_WAVE.getD (w - 1).toNat 0

/-- The wave-completion check (tgame4.cpp lines 914-925): when both the
alive counter and the spawn quota are zero, either advance the wave and
reload the quota (wave < TOTAL_WAVES) or enter VICTORY and record a new
high score (wave == TOTAL_WAVES). -/
def waveCheck (s : RunState) : RunState :=
  if s.waveZombiesRemaining = 0 ∧ s.zombiesToSpawn = 0 ∧ s.wave < TOTAL_WAVES then
    { s with wave := s.wave + 1, zombiesToSpawn := quotaAt (s.wave + 1) }
  else if s.waveZombiesRemaining = 0 ∧ s.zombiesToSpawn = 0 ∧ s.wave = TOTAL_WAVES then
    { s with highScore := max s.highScore s.score, gameState := GS.VICTORY }
  else s

/-- The game-over check (tgame4.cpp lines 928-936): the player falling out
of the screen or reaching health 0 ends the run. -/
def gameOverCheck (s : RunState) (fellOut : Bool) : RunState :=
  if fellOut ∨ s.playerHealth ≤ 0 then
    { s with highScore := max s.highScore s.score, gameState := GS.GAME_OVER }
  else s

/-- The tick state just before the wave-completion check: spawn, zombie
loop, food loop, in source order. -/
def preWave (s : RunState) (env : TickEnv) : RunState :=
  foodPhase (combatPhase (spawnPhase s env.spawnTy) env) env

/-- One simulation tick: the PLAYING branch of the main loop (tgame4.cpp
lines 817-936) at the combat/wave level — spawn, zombie loop, food loop,
wave check, game-over check, in source order.  The player/zombie/food
kinematic updates inside the same branch move positions only; they reach
this level through the TickEnv oracles and are embedded separately as
`PEnt.update`. -/
def tick (s : RunState) (env : TickEnv) : RunState :=
  gameOverCheck (waveCheck (preWave s env)) env.fellOut

/-- A frame simulates only in the PLAYING state (line 817). -/
def frame (s : RunState) (env : TickEnv) : RunState :=
  if s.gameState = GS.PLAYING then tick s env else s

/-- Clamp of the horizontal speed used by PhysicsEntity::accelerate
(tgame4.cpp lines 192-193). -/
def clampSpeed (vx : ℚ) : ℚ :=
  if vx > MAX_SPEED then MAX_SPEED else if vx < -MAX_SPEED then -MAX_SPEED else vx

/-- accelerate applied to a bare velocity vector. -/
def accelVec (v : Vector2D) (ax ay : ℚ) : Vector2D :=
  ⟨clampSpeed (v.x + ax), v.y + ay⟩

/-- The SPACE keydown handler (tgame4.cpp lines 751-753): jump only while
PLAYING, on the ground, and not already holding the jump; it calls
accelerate(0, JUMP_FORCE) — an addition to velocity.y — and clears
onGround. -/
def handleJump (s : RunState) : RunState :=
  if s.gameState = GS.PLAYING ∧ s.playerOnGround ∧ ¬s.jumping then
    { s with playerVel := accelVec s.playerVel 0 JUMP_FORCE,
             playerOnGround := false, jumping := true }
  else s

/-- The f keydown handler (tgame4.cpp lines 756-761): arm the melee attack
only when ATTACK_COOLDOWN has elapsed since the last activation. -/
def handleAttackKey (s : RunState) (t : ℚ) : RunState :=
  if s.gameState = GS.PLAYING ∧ t - s.lastAttackTime ≥ ATTACK_COOLDOWN then
    { s with attacking := true, lastAttackTime := t }
  else s

/-- The ESC keydown handler (tgame4.cpp lines 746-749): toggle
PLAYING/PAUSED. -/
def handlePauseKey (s : RunState) : RunState :=
  if s.gameState = GS.PLAYING then { s with gameState := GS.PAUSED }
  else if s.gameState = GS.PAUSED then { s with gameState := GS.PLAYING }
  else s

/-- The snapshot the pause menu's Save button builds from the live run
(tgame4.cpp lines 781-794).  Zombie positions are geometry and irrelevant
to the logic modelled here, so they are recorded as 0. -/
def snapshotOf (s : RunState) (startTime : ℚ) : GameState :=
  ⟨⟨0, 0⟩, s.playerVel, s.playerHealth, s.score, startTime, true,
   s.zombies.map (fun z => (0, 0, z.ty)), s.wave, s.zombiesToSpawn,
   s.waveZombiesRemaining, 0⟩

/-- The load-saved branch at run start (tgame4.cpp lines 670-690): only a
snapshot whose validity flag is set is applied; restored zombies are
constructed fresh from their saved type (line 683), so they regain full
type health and a zero damage timestamp. -/
def maybeRestore (g : GameState) (s : RunState) : RunState :=
  if g.isValid then
    { s with playerVel := g.playerVel, playerHealth := g.playerHealth,
             score := g.score,
             zombies := g.zombies.map (fun z => freshZombie z.2.2),
             wave := g.wave, zombiesToSpawn := g.zombiesToSpawn,
             waveZombiesRemaining := g.waveZombiesRemaining }
  else s

/-- Starting a saved run: the snapshot of a live run is serialized,
deserialized and applied over the fresh initial state. -/
def restoreOf (s : RunState) (startTime : ℚ) (junk : Junk) : RunState :=
  maybeRestore (loadGameState (some (saveGameState (snapshotOf s startTime))) junk) initState

/-- One observable step of the run: a simulated frame, one of the event
handlers, or an arbitrary change of the purely kinematic player fields
(velocity/onGround/jumping), which over-approximates the effect of the
movement keys and PhysicsEntity::update on them. -/
inductive Step : RunState → RunState → Prop
  | tick (s : RunState) (env : TickEnv) : Step s (frame s env)
  | jumpKey (s : RunState) : Step s (handleJump s)
  | attackKey (s : RunState) (t : ℚ) : Step s (handleAttackKey s t)
  | pauseKey (s : RunState) : Step s (handlePauseKey s)
  | physics (s : RunState) (v : Vector2D) (og jp : Bool) :
      Step s { s with playerVel := v, playerOnGround := og, jumping := jp }

/-- Run states reachable from a fresh run, closed under steps and under
save/load restarts. -/
inductive Reachable : RunState → Prop
  | init : Reachable initState
  | step {s s' : RunState} : Reachable s → Step s s' → Reachable s'
  | load {s : RunState} (startTime : ℚ) (junk : Junk) :
      Reachable s → Reachable (restoreOf s startTime junk)

/-- The inductive run invariant: the wave-alive counter equals the live
zombie count, the on-screen cap holds, the wave index is within 1..5 and
the spawn quota is non-negative. -/
def Inv (s : RunState) : Prop :=
  (s.zombies.length : Int) = s.waveZombiesRemaining ∧
  s.zombies.length ≤ MAX_ZOMBIES_ONSCREEN ∧
  1 ≤ s.wave ∧ s.wave ≤ TOTAL_WAVES ∧ 0 ≤ s.zombiesToSpawn

/-- Platform (tgame4.cpp lines 37-40): a tile-grid rectangle (the texture
pointer is rendering-only and omitted). -/
structure Platform where
  x : Int
  y : Int
  width : Int
  height : Int
deriving DecidableEq, Repr

/-- The platform layout constructed in RunMainGame (lines 637-644). -/
def gamePlatforms : List Platform :=
  [⟨0, 17, 30, 2⟩, ⟨2, 12, 8, 1⟩, ⟨15, 12, 8, 1⟩, ⟨10, 8, 5, 1⟩, ⟨2, 4, 8, 1⟩, ⟨15, 4, 8, 1⟩]

/-- C float-to-int cast: truncation toward zero. -/
def toIntC (q : ℚ) : Int :=
  q.num.tdiv (q.den : Int)

/-- Terrain::getSolid (tgame4.cpp lines 49-58): whether the pixel point
(x, y) lies inside some platform's pixel rectangle; platforms are scanned
in declaration order and the first hit wins, which for this pure
membership test is the same as existence. -/
def getSolid (platforms : List Platform) (x y : Int) : Bool :=
  platforms.any (fun p =>
    decide (x ≥ p.x * TILE_SIZE ∧ x < p.x * TILE_SIZE + p.width * TILE_SIZE ∧
            y ≥ p.y * TILE_SIZE ∧ y < p.y * TILE_SIZE + p.height * TILE_SIZE))

/-- PhysicsEntity (tgame4.cpp lines 62-229): the kinematic fields.  The
animation bookkeeping (frames, frameTime) and textures are rendering-only
and omitted. -/
structure PEnt where
  pos : Vector2D
  vel : Vector2D
  col : Vector2D
  w : Int
  h : Int
  onGround : Bool
  gravity : Bool
  friction : Bool
  health : Int
deriving DecidableEq, Repr

/-- PhysicsEntity::accelerate (tgame4.cpp lines 189-194): add to velocity,
then clamp the horizontal component to plus/minus MAX_SPEED. -/
def PEnt.accelerate (e : PEnt) (ax ay : ℚ) : PEnt :=
  { e with vel := ⟨clampSpeed (e.vel.x + ax), e.vel.y + ay⟩ }

/-- PhysicsEntity::grounded (tgame4.cpp lines 202-205). -/
def PEnt.groundedQ (e : PEnt) (terrain : List Platform) : Bool :=
  getSolid terrain (toIntC (e.pos.x + e.col.x - 1)) (toIntC (e.pos.y + e.col.y)) ||
  getSolid terrain (toIntC (e.pos.x + 1)) (toIntC (e.pos.y + e.col.y))

/-- PhysicsEntity::ceilingCol (tgame4.cpp lines 208-211). -/
def PEnt.ceilingColQ (e : PEnt) (terrain : List Platform) : Bool :=
  getSolid terrain (toIntC (e.pos.x + e.col.x - 1)) (toIntC e.pos.y) ||
  getSolid terrain (toIntC (e.pos.x + 1)) (toIntC e.pos.y)

/-- PhysicsEntity::leftCol (tgame4.cpp lines 214-218). -/
def PEnt.leftColQ (e : PEnt) (terrain : List Platform) : Bool :=
  if e.vel.x ≥ 0 then false
  else
    getSolid terrain (toIntC e.pos.x) (toIntC (e.pos.y + e.col.y - 1)) ||
    getSolid terrain (toIntC e.pos.x) (toIntC e.pos.y)

/-- PhysicsEntity::rightCol (tgame4.cpp lines 221-225). -/
def PEnt.rightColQ (e : PEnt) (terrain : List Platform) : Bool :=
  if e.vel.x ≤ 0 then false
  else
    getSolid terrain (toIntC (e.pos.x + e.col.x)) (toIntC (e.pos.y + e.col.y - 1)) ||
    getSolid terrain (toIntC (e.pos.x + e.col.x)) (toIntC e.pos.y)

/-- The ground-snap loop (tgame4.cpp lines 124-131): snap the bottom edge
to the top of the first platform, in declaration order, overlapping the
10-pixel band at the feet. -/
def groundSnap (e : PEnt) (terrain : List Platform) : PEnt :=
  match terrain.find? (fun p =>
    decide (e.pos.x + (e.w : ℚ) > ((p.x * TILE_SIZE : Int) : ℚ) ∧
            e.pos.x < ((p.x * TILE_SIZE + p.width * TILE_SIZE : Int) : ℚ) ∧
            e.pos.y + (e.h : ℚ) ≥ ((p.y * TILE_SIZE : Int) : ℚ) ∧
            e.pos.y + (e.h : ℚ) ≤ ((p.y * TILE_SIZE : Int) : ℚ) + 10)) with
  | some p => { e with pos := ⟨e.pos.x, ((p.y * TILE_SIZE : Int) : ℚ) - (e.h : ℚ)⟩ }
  | none => e

/-- The ceiling-snap loop (tgame4.cpp lines 136-143). -/
def ceilSnap (e : PEnt) (terrain : List Platform) : PEnt :=
  match terrain.find? (fun p =>
    decide (e.pos.x + (e.w : ℚ) > ((p.x * TILE_SIZE : Int) : ℚ) ∧
            e.pos.x < ((p.x * TILE_SIZE + p.width * TILE_SIZE : Int) : ℚ) ∧
            e.pos.y ≤ ((p.y * TILE_SIZE + p.height * TILE_SIZE : Int) : ℚ) ∧
            e.pos.y ≥ ((p.y * TILE_SIZE : Int) : ℚ))) with
  | some p => { e with pos := ⟨e.pos.x, ((p.y * TILE_SIZE + p.height * TILE_SIZE : Int) : ℚ)⟩ }
  | none => e

/-- The left-wall-snap loop (tgame4.cpp lines 148-155). -/
def leftSnap (e : PEnt) (terrain : List Platform) : PEnt :=
  match terrain.find? (fun p =>
    decide (e.pos.y + (e.h : ℚ) > ((p.y * TILE_SIZE : Int) : ℚ) ∧
            e.pos.y < ((p.y * TILE_SIZE + p.height * TILE_SIZE : Int) : ℚ) ∧
            e.pos.x ≤ ((p.x * TILE_SIZE + p.width * TILE_SIZE : Int) : ℚ) ∧
            e.pos.x ≥ ((p.x * TILE_SIZE : Int) : ℚ))) with
  | some p => { e with pos := ⟨((p.x * TILE_SIZE + p.width * TILE_SIZE : Int) : ℚ), e.pos.y⟩ }
  | none => e

/-- The right-wall-snap loop (tgame4.cpp lines 159-166). -/
def rightSnap (e : PEnt) (terrain : List Platform) : PEnt :=
  match terrain.find? (fun p =>
    decide (e.pos.y + (e.h : ℚ) > ((p.y * TILE_SIZE : Int) : ℚ) ∧
            e.pos.y < ((p.y * TILE_SIZE + p.height * TILE_SIZE : Int) : ℚ) ∧
            e.pos.x + (e.w : ℚ) ≥ ((p.x * TILE_SIZE : Int) : ℚ) ∧
            e.pos.x + (e.w : ℚ) ≤ ((p.x * TILE_SIZE + p.width * TILE_SIZE : Int) : ℚ))) with
  | some p => { e with pos := ⟨((p.x * TILE_SIZE : Int) : ℚ) - (e.w : ℚ), e.pos.y⟩ }
  | none => e

/-- PhysicsEntity::update (tgame4.cpp lines 115-186): gravity, friction,
Euler integration, then ground / ceiling / left-wall / right-wall
resolution in that fixed order, then the playfield clamp of lines 169-173
with its position-into-velocity assignments.  The animation-frame update
(lines 175-185) is rendering-only and omitted. -/
def PEnt.update (e0 : PEnt) (terrain : List Platform) (hasInput : Bool) : PEnt :=
  let e1 := if e0.gravity then { e0 with vel := ⟨e0.vel.x, e0.vel.y + GRAVITY⟩ } else e0
  let e2 := if e1.onGround ∧ e1.friction ∧ ¬hasInput then
    { e1 with vel := ⟨e1.vel.x * FRICTION, e1.vel.y⟩ } else e1
  let e3 := { e2 with pos := ⟨e2.pos.x + e2.vel.x, e2.pos.y + e2.vel.y⟩, onGround := false }
  let e4 := if e3.groundedQ terrain ∧ e3.vel.y ≥ 0 then
    groundSnap { e3 with vel := ⟨e3.vel.x, 0⟩, onGround := true } terrain else e3
  let e5 := if e4.ceilingColQ terrain ∧ e4.vel.y < 0 then
    ceilSnap { e4 with vel := ⟨e4.vel.x, 0⟩ } terrain else e4
  let e6 := if e5.leftColQ terrain ∧ e5.vel.x < 0 ∧ ¬e5.ceilingColQ terrain then
    leftSnap { e5 with vel := ⟨0, e5.vel.y⟩ } terrain else e5
  let e7 := if e6.rightColQ terrain ∧ e6.vel.x > 0 ∧ ¬e6.ceilingColQ terrain then
    rightSnap { e6 with vel := ⟨0, e6.vel.y⟩ } terrain else e6
  if e7.pos.x ≤ 10 then { e7 with pos := ⟨10, e7.pos.y⟩, vel := ⟨10, e7.vel.y⟩ }
  else if e7.pos.x > ((SCREEN_WIDTH - e7.w - 30 : Int) : ℚ) then
    { e7 with pos := ⟨((SCREEN_WIDTH - e7.w - 60 : Int) : ℚ), e7.pos.y⟩,
              vel := ⟨((SCREEN_WIDTH - e7.w - 60 : Int) : ℚ), e7.vel.y⟩ }
  else if e7.pos.y ≤ 0 then { e7 with pos := ⟨e7.pos.x, 0⟩, vel := ⟨e7.vel.x, 0⟩ }
  else if e7.pos.y ≥ ((SCREEN_HEIGHT - e7.h - 50 : Int) : ℚ) then
    { e7 with pos := ⟨e7.pos.x, ((SCREEN_HEIGHT - e7.h - 60 : Int) : ℚ)⟩,
              vel := ⟨e7.vel.x, ((SCREEN_HEIGHT - e7.h - 60 : Int) : ℚ)⟩ }
  else e7

/-- A tick environment with every oracle off, used for witnesses. -/
def envNull : TickEnv :=
  ⟨0, ZType.ATTACK, fun _ => false, fun _ => false, fun _ => false, fun _ => false, false⟩

/-- Environment for the continuous-contact scenario: the single zombie's
rect intersects the player's every tick, nothing else fires. -/
def envContact (t : ℚ) : TickEnv :=
  ⟨t, ZType.ATTACK, fun _ => true, fun _ => false, fun _ => false, fun _ => false, false⟩

/-- Run state for the continuous-contact scenario: player at health 100,
one Fast (ATTACK) zombie in contact, no quota left to spawn. -/
def sContact : RunState :=
  ⟨⟨0, 0⟩, false, false, 100, 0, [⟨ZType.ATTACK, 50, 0⟩], [], false, 0, 1, 0, 1, GS.PLAYING, 0⟩

/-- The clock samples of the continuous-contact scenario: ticks every 0.4
time-units through the contact window [10.0, 13.0). -/
def contactTimes : List ℚ :=
  [10, 52/5, 54/5, 56/5, 58/5, 12, 62/5, 64/5]

/-- One scenario step: a frame at clock sample t with continuous contact. -/
def contactStep (s : RunState) (t : ℚ) : RunState :=
  frame s (envContact t)

/-- Run state for the melee scenario: one Tank zombie at health 100, the
attack armed at time 1. -/
def sTank : RunState :=
  ⟨⟨0, 0⟩, false, false, 100, 0, [⟨ZType.TANK, 100, 0⟩], [], true, 1, 1, 0, 1, GS.PLAYING, 0⟩

/-- Environment for the melee scenario: the zombie is inside the melee
hitbox but not touching the player, and the food-drop roll fails. -/
def envMelee (t : ℚ) : TickEnv :=
  ⟨t, ZType.ATTACK, fun _ => false, fun _ => true, fun _ => false, fun _ => false, false⟩

/-- Run state for the pickup scenarios: playerHealth 90, one Tank zombie
not in contact (to keep the wave counters busy), and one food item whose
spawn time the scenario varies. -/
def sFood (ph : Int) (spawn : ℚ) : RunState :=
  ⟨⟨0, 0⟩, false, false, ph, 0, [⟨ZType.TANK, 100, 0⟩], [⟨spawn⟩], false, 0, 1, 0, 1, GS.PLAYING, 0⟩

/-- Environment for the pickup scenarios: the food touches the player. -/
def envFood (t : ℚ) : TickEnv :=
  ⟨t, ZType.ATTACK, fun _ => false, fun _ => false, fun _ => false, fun _ => true, false⟩

/-- The counterexample entity for the playfield clamp: a falling body near
the left edge of the screen. -/
def eClampDemo : PEnt :=
  ⟨⟨5, 100⟩, ⟨0, 0⟩, ⟨48, 48⟩, 48, 48, false, true, true, 100⟩

/-- A grounded player state whose vertical velocity is nonzero (the
boundary clamp of PhysicsEntity::update can produce such states while
leaving onGround set). -/
def sJumpDemo : RunState :=
  ⟨⟨0, 1⟩, true, false, 100, 0, [], [], false, 0, 1, 15, 0, GS.PLAYING, 0⟩

/-- A grounded player state at rest, the normal jump situation. -/
def sJumpRest : RunState :=
  ⟨⟨0, 0⟩, true, false, 100, 0, [], [], false, 0, 1, 15, 0, GS.PLAYING, 0⟩

theorem readZombies_enc (zs : List (ℚ × ℚ × ZType)) (rest : List SaveTok) (junk : Junk) :
    readZombies zs.length ⟨zs.flatMap encZombie ++ rest, false⟩ junk = (zs, ⟨rest, false⟩) := by
  induction zs with
  | nil => rfl
  | cons z zs ih =>
    simp only [List.length_cons, List.flatMap_cons, List.append_assoc]
    have hty : intToZType (ZType.toInt z.2.2) = z.2.2 := by
      cases z.2.2 <;> rfl
    simp [readZombies, encZombie, readF, readI, ih, hty]

/-- Round-trip of the codec on the listed fields, shared by the claim
theorems and the reachability construction. -/
theorem roundtrip_aux (g : GameState) (junk : Junk) :
    (loadGameStateAux (saveGameState g) junk).1 =
      { g with isValid := g.isValid } := by
  unfold loadGameStateAux saveGameState
  simp only [readF, readI, readD, readB, readSz, if_false, Bool.false_eq_true]
  simp [readZombies_enc g.zombies [SaveTok.i g.wave, SaveTok.i g.zombiesToSpawn,
    SaveTok.i g.waveZombiesRemaining, SaveTok.i g.weatherType] junk, readI]

theorem idxFrom_length (n : Nat) (l : List α) : (idxFrom n l).length = l.length := by
  induction l generalizing n with
  | nil => rfl
  | cons a l ih => simp [idxFrom, ih]

theorem combatLoop_len (t : ℚ) (atk : Bool) (touch mel fd : Nat → Bool) (ph : Int)
    (l : List (Nat × ZState)) :
    (combatLoop t atk touch mel fd ph l).zs.length +
      (combatLoop t atk touch mel fd ph l).kills = l.length := by
  induction l generalizing ph with
  | nil => rfl
  | cons p rest ih =>
    rcases p with ⟨i, z⟩
    simp only [combatLoop]
    split_ifs <;> simp only [List.length_cons] <;> rw [← ih (contactTwice ph z t (touch i)).1] <;> omega

theorem quotaAt_nonneg (w : Int) : 0 ≤ quotaAt w := by
  unfold quotaAt ZOMBIES_PER_WAVE
  rcases (w - 1).toNat with _ | _ | _ | _ | _ | n <;> simp [List.getD]

theorem inv_spawnPhase (s : RunState) (ty : ZType) (h : Inv s) : Inv (spawnPhase s ty) := by
  obtain ⟨h1, h2, h3, h4, h5⟩ := h
  simp only [MAX_ZOMBIES_ONSCREEN] at h2
  unfold spawnPhase
  split_ifs with hc
  · obtain ⟨hq, hl⟩ := hc
    simp only [MAX_ZOMBIES_ONSCREEN] at hl
    refine ⟨?_, ?_, h3, h4, ?_⟩ <;>
      simp only [List.length_append, List.length_cons, List.length_nil, MAX_ZOMBIES_ONSCREEN] <;>
      omega
  · exact ⟨h1, by simpa [MAX_ZOMBIES_ONSCREEN], h3, h4, h5⟩

theorem inv_combatPhase (s : RunState) (env : TickEnv) (h : Inv s) : Inv (combatPhase s env) := by
  obtain ⟨h1, h2, h3, h4, h5⟩ := h
  simp only [MAX_ZOMBIES_ONSCREEN] at h2
  have hlen := combatLoop_len env.t s.attacking env.touch env.inMelee env.foodDrop
    s.playerHealth (idxFrom 0 s.zombies)
  rw [idxFrom_length] at hlen
  unfold combatPhase
  exact ⟨by push_cast; omega, by simp only [MAX_ZOMBIES_ONSCREEN]; omega, h3, h4, h5⟩

theorem inv_foodPhase (s : RunState) (env : TickEnv) (h : Inv s) : Inv (foodPhase s env) := by
  obtain ⟨h1, h2, h3, h4, h5⟩ := h
  exact ⟨h1, h2, h3, h4, h5⟩

theorem inv_waveCheck (s : RunState) (h : Inv s) : Inv (waveCheck s) := by
  obtain ⟨h1, h2, h3, h4, h5⟩ := h
  unfold waveCheck
  split_ifs with hc hc2
  · obtain ⟨hw0, hts, hlt⟩ := hc
    refine ⟨h1, h2, ?_, ?_, quotaAt_nonneg _⟩
    · show 1 ≤ s.wave + 1
      omega
    · show s.wave + 1 ≤ TOTAL_WAVES
      simp only [TOTAL_WAVES] at hlt ⊢
      omega
  · exact ⟨h1, h2, h3, h4, h5⟩
  · exact ⟨h1, h2, h3, h4, h5⟩

theorem inv_gameOverCheck (s : RunState) (fo : Bool) (h : Inv s) : Inv (gameOverCheck s fo) := by
  obtain ⟨h1, h2, h3, h4, h5⟩ := h
  unfold gameOverCheck
  split_ifs <;> exact ⟨h1, h2, h3, h4, h5⟩

theorem inv_tick (s : RunState) (env : TickEnv) (h : Inv s) : Inv (tick s env) :=
  inv_gameOverCheck _ _ (inv_waveCheck _ (inv_foodPhase _ _ (inv_combatPhase _ _ (inv_spawnPhase _ _ h))))

theorem inv_frame (s : RunState) (env : TickEnv) (h : Inv s) : Inv (frame s env) := by
  unfold frame
  split_ifs
  · exact inv_tick s env h
  · exact h

theorem inv_handleJump (s : RunState) (h : Inv s) : Inv (handleJump s) := by
  obtain ⟨h1, h2, h3, h4, h5⟩ := h
  unfold handleJump
  split_ifs <;> exact ⟨h1, h2, h3, h4, h5⟩

theorem inv_handleAttackKey (s : RunState) (t : ℚ) (h : Inv s) : Inv (handleAttackKey s t) := by
  obtain ⟨h1, h2, h3, h4, h5⟩ := h
  unfold handleAttackKey
  split_ifs <;> exact ⟨h1, h2, h3, h4, h5⟩

theorem inv_handlePauseKey (s : RunState) (h : Inv s) : Inv (handlePauseKey s) := by
  obtain ⟨h1, h2, h3, h4, h5⟩ := h
  unfold handlePauseKey
  split_ifs <;> exact ⟨h1, h2, h3, h4, h5⟩

theorem load_of_save (g : GameState) (junk : Junk) :
    loadGameState (some (saveGameState g)) junk = { g with isValid := true } := by
  show ({ (loadGameStateAux (saveGameState g) junk).1 with isValid := true } : GameState) = _
  rw [roundtrip_aux]

theorem inv_restoreOf (s : RunState) (st : ℚ) (junk : Junk) (h : Inv s) :
    Inv (restoreOf s st junk) := by
  obtain ⟨h1, h2, h3, h4, h5⟩ := h
  unfold restoreOf
  rw [load_of_save]
  simp only [maybeRestore, snapshotOf, if_true]
  exact ⟨by simpa using h1, by simpa using h2, h3, h4, h5⟩

theorem reachable_inv {s : RunState} (h : Reachable s) : Inv s := by
  induction h with
  | init => exact ⟨rfl, by decide, by decide, by decide, by decide⟩
  | step hr hstep ih =>
    cases hstep with
    | tick env => exact inv_frame _ env ih
    | jumpKey => exact inv_handleJump _ ih
    | attackKey t => exact inv_handleAttackKey _ t ih
    | pauseKey => exact inv_handlePauseKey _ ih
    | physics v og jp =>
      obtain ⟨h1, h2, h3, h4, h5⟩ := ih
      exact ⟨h1, h2, h3, h4, h5⟩
  | load st junk hr ih => exact inv_restoreOf _ st junk ih

theorem inv_preWave (s : RunState) (env : TickEnv) (h : Inv s) : Inv (preWave s env) :=
  inv_foodPhase _ _ (inv_combatPhase _ _ (inv_spawnPhase _ _ h))

theorem preWave_wave (s : RunState) (env : TickEnv) : (preWave s env).wave = s.wave := by
  unfold preWave foodPhase combatPhase spawnPhase
  split_ifs <;> rfl

theorem preWave_gs (s : RunState) (env : TickEnv) : (preWave s env).gameState = s.gameState := by
  unfold preWave foodPhase combatPhase spawnPhase
  split_ifs <;> rfl

theorem gameOverCheck_fields (s : RunState) (fo : Bool) :
    (gameOverCheck s fo).wave = s.wave ∧ (gameOverCheck s fo).zombies = s.zombies ∧
    (gameOverCheck s fo).zombiesToSpawn = s.zombiesToSpawn ∧
    (gameOverCheck s fo).waveZombiesRemaining = s.waveZombiesRemaining := by
  unfold gameOverCheck
  split_ifs <;> exact ⟨rfl, rfl, rfl, rfl⟩

theorem gameOverCheck_gs (s : RunState) (fo : Bool) :
    (gameOverCheck s fo).gameState = s.gameState ∨
    (gameOverCheck s fo).gameState = GS.GAME_OVER := by
  unfold gameOverCheck
  split_ifs
  · exact Or.inr rfl
  · exact Or.inl rfl

theorem waveCheck_cases (s : RunState) :
    (¬(s.waveZombiesRemaining = 0 ∧ s.zombiesToSpawn = 0) ∧ waveCheck s = s) ∨
    (s.waveZombiesRemaining = 0 ∧ s.zombiesToSpawn = 0 ∧ s.wave < TOTAL_WAVES ∧
      waveCheck s = { s with wave := s.wave + 1, zombiesToSpawn := quotaAt (s.wave + 1) }) ∨
    (s.waveZombiesRemaining = 0 ∧ s.zombiesToSpawn = 0 ∧ s.wave = TOTAL_WAVES ∧
      waveCheck s = { s with highScore := max s.highScore s.score, gameState := GS.VICTORY }) ∨
    (s.waveZombiesRemaining = 0 ∧ s.zombiesToSpawn = 0 ∧ ¬s.wave < TOTAL_WAVES ∧
      s.wave ≠ TOTAL_WAVES ∧ waveCheck s = s) := by
  unfold waveCheck
  split_ifs with h1 h2
  · exact Or.inr (Or.inl ⟨h1.1, h1.2.1, h1.2.2, rfl⟩)
  · exact Or.inr (Or.inr (Or.inl ⟨h2.1, h2.2.1, h2.2.2, rfl⟩))
  · by_cases hz : s.waveZombiesRemaining = 0 ∧ s.zombiesToSpawn = 0
    · exact Or.inr (Or.inr (Or.inr ⟨hz.1, hz.2,
        fun hlt => h1 ⟨hz.1, hz.2, hlt⟩, fun he => h2 ⟨hz.1, hz.2, he⟩, rfl⟩))
    · exact Or.inl ⟨hz, rfl⟩

theorem waveCheck_zombies (s : RunState) : (waveCheck s).zombies = s.zombies := by
  unfold waveCheck
  split_ifs <;> rfl

theorem spawnPhase_len_le (s : RunState) (ty : ZType) :
    (spawnPhase s ty).zombies.length ≤ s.zombies.length + 1 := by
  unfold spawnPhase
  split_ifs <;> simp

theorem spawnPhase_toSpawn_ge (s : RunState) (ty : ZType) :
    s.zombiesToSpawn - 1 ≤ (spawnPhase s ty).zombiesToSpawn := by
  unfold spawnPhase
  split_ifs
  · exact le_refl _
  · omega

theorem combatPhase_len_le (s : RunState) (env : TickEnv) :
    (combatPhase s env).zombies.length ≤ s.zombies.length := by
  have hlen := combatLoop_len env.t s.attacking env.touch env.inMelee env.foodDrop
    s.playerHealth (idxFrom 0 s.zombies)
  rw [idxFrom_length] at hlen
  show (combatLoop env.t s.attacking env.touch env.inMelee env.foodDrop
    s.playerHealth (idxFrom 0 s.zombies)).zs.length ≤ s.zombies.length
  omega

theorem contactOnce_health (ph : Int) (z : ZState) (t : ℚ) (touch : Bool) :
    (contactOnce ph z t touch).2.health = z.health := by
  unfold contactOnce
  split_ifs <;> rfl

theorem contactTwice_health (ph : Int) (z : ZState) (t : ℚ) (touch : Bool) :
    (contactTwice ph z t touch).2.health = z.health := by
  unfold contactTwice
  rw [contactOnce_health, contactOnce_health]

theorem contactOnce_no_touch (ph : Int) (z : ZState) (t : ℚ) :
    contactOnce ph z t false = (ph, z) := by
  simp [contactOnce]

theorem contactTwice_no_touch (ph : Int) (z : ZState) (t : ℚ) :
    contactTwice ph z t false = (ph, z) := by
  unfold contactTwice
  rw [contactOnce_no_touch, contactOnce_no_touch]

/-- C1: serializing a RunSnapshot with saveGameState and immediately
deserializing it with loadGameState from the same file reproduces identical
player position, velocity and health, identical score, wave index,
remaining-to-spawn and alive counts, and an identical hostile list (same
order, positions and variant tags).  Pickups appear nowhere in the
GameState record, so they are excluded from the snapshot in both
directions. -/
theorem save_load_roundtrip (g : GameState) (junk : Junk) :
    (loadGameState (some (saveGameState g)) junk).playerPos = g.playerPos ∧
    (loadGameState (some (saveGameState g)) junk).playerVel = g.playerVel ∧
    (loadGameState (some (saveGameState g)) junk).playerHealth = g.playerHealth ∧
    (loadGameState (some (saveGameState g)) junk).score = g.score ∧
    (loadGameState (some (saveGameState g)) junk).wave = g.wave ∧
    (loadGameState (some (saveGameState g)) junk).zombiesToSpawn = g.zombiesToSpawn ∧
    (loadGameState (some (saveGameState g)) junk).waveZombiesRemaining = g.waveZombiesRemaining ∧
    (loadGameState (some (saveGameState g)) junk).zombies = g.zombies := by
  rw [load_of_save]
  exact ⟨rfl, rfl, rfl, rfl, rfl, rfl, rfl, rfl⟩

/-- C2 counterexample: a file that opens but is empty (all reads fail)
still comes back with the validity flag set — the failbit after the last
read is true, yet isValid is true, refuting that validity is true only
when every field was read fully and successfully. -/
theorem load_truncated_marked_valid :
    (loadGameStateAux [] ⟨0, 0, 0, 0, 0, 0, 0⟩).2 = true ∧
    (loadGameState (some []) ⟨0, 0, 0, 0, 0, 0, 0⟩).isValid = true := by
  exact ⟨rfl, rfl⟩

/-- C2 amended: loadGameState marks the snapshot valid exactly when the
source opened — a failure to open yields the default-constructed invalid
snapshot, while a file that opens but whose reads fail partway is still
marked valid with the unread fields left at their defaults or
indeterminate values; the caller's validity check (maybeRestore) leaves
the fresh run state untouched for an invalid snapshot, so an unopenable
save file silently starts a fresh run. -/
theorem load_validity_iff_open :
    (∀ junk : Junk, (loadGameState none junk).isValid = false) ∧
    (∀ (toks : List SaveTok) (junk : Junk), (loadGameState (some toks) junk).isValid = true) ∧
    (∀ (g : GameState) (s : RunState), g.isValid = false → maybeRestore g s = s) := by
  refine ⟨fun junk => rfl, fun toks junk => rfl, fun g s hval => ?_⟩
  unfold maybeRestore
  rw [if_neg (by simp [hval])]

theorem load_validity_iff_open_witness :
    (loadGameState none ⟨0, 0, 0, 0, 0, 0, 0⟩).isValid = false ∧
    (loadGameState (some []) ⟨0, 0, 0, 0, 0, 0, 0⟩).isValid = true ∧
    maybeRestore (loadGameState none ⟨0, 0, 0, 0, 0, 0, 0⟩) initState = initState :=
  ⟨load_validity_iff_open.1 ⟨0, 0, 0, 0, 0, 0, 0⟩,
   load_validity_iff_open.2.1 [] ⟨0, 0, 0, 0, 0, 0, 0⟩,
   load_validity_iff_open.2.2 (loadGameState none ⟨0, 0, 0, 0, 0, 0, 0⟩) initState rfl⟩

/-- C3 counterexample: PhysicsEntity::update's playfield clamp violates
the velocity invariant — a falling body whose integrated position lands at
x ≤ 10 gets velocity.x assigned the clamped position value 10, which
exceeds MAX_SPEED = 5. -/
theorem playfield_clamp_breaks_speed_cap :
    (PEnt.update eClampDemo gamePlatforms false).vel.x = 10 ∧
    ¬((PEnt.update eClampDemo gamePlatforms false).vel.x ≤ MAX_SPEED) := by
  constructor
  · with_unfolding_all decide
  · rw [show (PEnt.update eClampDemo gamePlatforms false).vel.x = 10 by with_unfolding_all decide]
    norm_num [MAX_SPEED]

/-- C3 amended: horizontal velocity is clamped to within plus/minus
MAX_SPEED by every accelerate call, but not by the playfield clamp at the
end of PhysicsEntity::update, which can assign out-of-range position
values (10 at the left edge, SCREEN_WIDTH - w - 60 at the right edge) into
velocity.x, as the counterexample shows. -/
theorem accelerate_clamps_velx (e : PEnt) (ax ay : ℚ) :
    -MAX_SPEED ≤ (e.accelerate ax ay).vel.x ∧ (e.accelerate ax ay).vel.x ≤ MAX_SPEED := by
  show -MAX_SPEED ≤ clampSpeed (e.vel.x + ax) ∧ clampSpeed (e.vel.x + ax) ≤ MAX_SPEED
  unfold clampSpeed MAX_SPEED
  split_ifs <;> constructor <;> norm_num <;> linarith

/-- C8 counterexample: the jump intent calls accelerate(0, JUMP_FORCE),
which adds JUMP_FORCE to velocity.y rather than setting it — from a
grounded state with velocity.y = 1 the jump leaves velocity.y = -12, not
JUMP_FORCE = -13. -/
theorem jump_adds_instead_of_sets :
    sJumpDemo.playerOnGround = true ∧
    (handleJump sJumpDemo).playerVel.y = -12 ∧
    ¬((handleJump sJumpDemo).playerVel.y = JUMP_FORCE) := by
  refine ⟨rfl, by with_unfolding_all decide, ?_⟩
  rw [show (handleJump sJumpDemo).playerVel.y = -12 by with_unfolding_all decide]
  norm_num [JUMP_FORCE]

/-- C8 amended: the jump intent fires only while PLAYING, grounded, and
not already holding the jump key; when it fires it adds the fixed negative
JUMP_FORCE (-13.0) to velocity.y — which equals setting velocity.y to
JUMP_FORCE exactly when the vertical velocity was 0, the normal grounded
case — clamps velocity.x to within plus/minus MAX_SPEED, and clears
onGround; when the guard fails the state (in particular the velocity) is
unchanged. -/
theorem jump_guarded_adds_jump_force (s : RunState) :
    (¬(s.gameState = GS.PLAYING ∧ s.playerOnGround ∧ ¬s.jumping) → handleJump s = s) ∧
    (s.gameState = GS.PLAYING → s.playerOnGround = true → s.jumping = false →
      (handleJump s).playerVel.y = s.playerVel.y + JUMP_FORCE ∧
      (handleJump s).playerVel.x = clampSpeed s.playerVel.x ∧
      (handleJump s).playerOnGround = false ∧
      (s.playerVel.y = 0 → (handleJump s).playerVel.y = JUMP_FORCE)) := by
  constructor
  · intro hng
    unfold handleJump
    rw [if_neg hng]
  · intro hgs hog hj
    have hc : s.gameState = GS.PLAYING ∧ s.playerOnGround ∧ ¬s.jumping := by
      refine ⟨hgs, by simp [hog], by simp [hj]⟩
    unfold handleJump
    rw [if_pos hc]
    refine ⟨?_, ?_, rfl, ?_⟩
    · show s.playerVel.y + JUMP_FORCE = s.playerVel.y + JUMP_FORCE
      rfl
    · show clampSpeed (s.playerVel.x + 0) = clampSpeed s.playerVel.x
      rw [add_zero]
    · intro h0
      show s.playerVel.y + JUMP_FORCE = JUMP_FORCE
      rw [h0, zero_add]

theorem foodPhase_zombies (s : RunState) (env : TickEnv) :
    (foodPhase s env).zombies = s.zombies := rfl

theorem preWave_zombies (s : RunState) (env : TickEnv) :
    (preWave s env).zombies = (combatPhase (spawnPhase s env.spawnTy) env).zombies := rfl

theorem preWave_toSpawn (s : RunState) (env : TickEnv) :
    (preWave s env).zombiesToSpawn = (spawnPhase s env.spawnTy).zombiesToSpawn := rfl

theorem waveCheck_toSpawn (s : RunState) :
    (waveCheck s).zombiesToSpawn = s.zombiesToSpawn ∨
    (s.zombiesToSpawn = 0 ∧ 0 ≤ (waveCheck s).zombiesToSpawn) := by
  unfold waveCheck
  split_ifs with h1 h2
  · exact Or.inr ⟨h1.2.1, quotaAt_nonneg _⟩
  · exact Or.inl rfl
  · exact Or.inl rfl

/-- C5: in every reachable run state the number of live hostiles never
exceeds the on-screen cap MAX_ZOMBIES_ONSCREEN = 5, the cap still holds
after any further tick, and the spawn step admits a hostile only when both
remaining-to-spawn > 0 and live count < cap hold — in particular, with 5
live hostiles and quota remaining the spawn step changes nothing. -/
theorem zombie_cap_invariant (s : RunState) (env : TickEnv) (ty : ZType) (h : Reachable s) :
    s.zombies.length ≤ MAX_ZOMBIES_ONSCREEN ∧
    (frame s env).zombies.length ≤ MAX_ZOMBIES_ONSCREEN ∧
    (¬(0 < s.zombiesToSpawn ∧ s.zombies.length < MAX_ZOMBIES_ONSCREEN) →
      spawnPhase s ty = s) := by
  have h1 := reachable_inv h
  have h2 := inv_frame s env h1
  refine ⟨h1.2.1, h2.2.1, fun hc => ?_⟩
  unfold spawnPhase
  rw [if_neg hc]

theorem zombie_cap_invariant_witness :
    initState.zombies.length ≤ MAX_ZOMBIES_ONSCREEN ∧
    (frame initState envNull).zombies.length ≤ MAX_ZOMBIES_ONSCREEN ∧
    (¬(0 < initState.zombiesToSpawn ∧ initState.zombies.length < MAX_ZOMBIES_ONSCREEN) →
      spawnPhase initState ZType.ATTACK = initState) :=
  zombie_cap_invariant initState envNull ZType.ATTACK Reachable.init

/-- C10: the wave scheduler admits at most one new hostile per tick — over
any single frame the live hostile count increases by at most one, and the
remaining-to-spawn count decreases by at most one (a wave advance can only
reload it upward from zero). -/
theorem spawn_at_most_one_per_tick (s : RunState) (env : TickEnv) :
    (frame s env).zombies.length ≤ s.zombies.length + 1 ∧
    s.zombiesToSpawn - 1 ≤ (frame s env).zombiesToSpawn := by
  by_cases hp : s.gameState = GS.PLAYING
  · have hf : frame s env = gameOverCheck (waveCheck (preWave s env)) env.fellOut := by
      unfold frame tick
      rw [if_pos hp]
    obtain ⟨hg1, hg2, hg3, hg4⟩ := gameOverCheck_fields (waveCheck (preWave s env)) env.fellOut
    have hlen : (preWave s env).zombies.length ≤ s.zombies.length + 1 := by
      rw [preWave_zombies]
      calc (combatPhase (spawnPhase s env.spawnTy) env).zombies.length
          ≤ (spawnPhase s env.spawnTy).zombies.length := combatPhase_len_le _ _
        _ ≤ s.zombies.length + 1 := spawnPhase_len_le _ _
    have hts : s.zombiesToSpawn - 1 ≤ (preWave s env).zombiesToSpawn := by
      rw [preWave_toSpawn]
      exact spawnPhase_toSpawn_ge s env.spawnTy
    constructor
    · rw [hf, hg2, waveCheck_zombies]
      exact hlen
    · rw [hf, hg3]
      rcases waveCheck_toSpawn (preWave s env) with he | ⟨he0, henn⟩
      · rw [he]
        exact hts
      · omega
  · have hf : frame s env = s := by
      unfold frame
      rw [if_neg hp]
    rw [hf]
    exact ⟨Nat.le_succ _, by omega⟩

theorem jump_guarded_adds_jump_force_witness :
    (handleJump sJumpRest).playerVel.y = JUMP_FORCE ∧
    (handleJump sJumpRest).playerOnGround = false ∧
    handleJump (handlePauseKey sJumpRest) = handlePauseKey sJumpRest := by
  have h := (jump_guarded_adds_jump_force sJumpRest).2 rfl rfl rfl
  refine ⟨h.2.2.2 rfl, h.2.2.1, ?_⟩
  exact (jump_guarded_adds_jump_force (handlePauseKey sJumpRest)).1 (by decide)

theorem contactOnce_pos (ph : Int) (z : ZState) (t : ℚ) (touch : Bool)
    (hc : (touch = true) ∧ t - z.lastDamageTime ≥ 1) :
    contactOnce ph z t touch =
      (if ph - z.ty.damage < 0 then 0 else ph - z.ty.damage,
       { z with lastDamageTime := t }) := by
  unfold contactOnce
  rw [if_pos hc]

theorem contactOnce_neg (ph : Int) (z : ZState) (t : ℚ) (touch : Bool)
    (hc : ¬((touch = true) ∧ t - z.lastDamageTime ≥ 1)) :
    contactOnce ph z t touch = (ph, z) := by
  unfold contactOnce
  rw [if_neg hc]

/-- C6: contact damage is applied at most once per tick even though the
intersection/damage check appears twice in sequence — the duplicated block
equals a single application, because a successful application resets the
agent's damage timestamp so the 1.0-unit cooldown gate fails immediately
after; and in the scenario of an Actor at health 100 in continuous contact
with one Fast hostile (damage 5) for 3.0 time-units (frames every 0.4 from
t = 10), health steps 100, 95, 90, 85 at the cooldown boundaries and ends
at exactly 85, never below. -/
theorem contact_damage_once_per_tick (ph : Int) (z : ZState) (t : ℚ) (touch : Bool) :
    contactTwice ph z t touch = contactOnce ph z t touch ∧
    (contactTimes.scanl contactStep sContact).map (fun st => st.playerHealth) =
      [100, 95, 95, 95, 90, 90, 90, 85, 85] := by
  constructor
  · show contactOnce (contactOnce ph z t touch).1 (contactOnce ph z t touch).2 t touch =
      contactOnce ph z t touch
    by_cases hc : (touch = true) ∧ t - z.lastDamageTime ≥ 1
    · rw [contactOnce_pos ph z t touch hc]
      refine contactOnce_neg _ _ t touch ?_
      rintro ⟨-, habs⟩
      have ht : ({ z with lastDamageTime := t } : ZState).lastDamageTime = t := rfl
      rw [ht, sub_self] at habs
      norm_num at habs
    · rw [contactOnce_neg ph z t touch hc]
      exact contactOnce_neg _ _ t touch hc
  · with_unfolding_all decide

theorem combatLoop_melee_spec (t : ℚ) (mel fd : Nat → Bool) (ph : Int)
    (l : List (Nat × ZState)) :
    (combatLoop t true (fun _ => false) mel fd ph l).ph = ph ∧
    (combatLoop t true (fun _ => false) mel fd ph l).zs =
      l.filterMap (fun p =>
        if mel p.1 then
          (if p.2.health - MELEE_DAMAGE ≤ 0 then none
           else some { p.2 with health := p.2.health - MELEE_DAMAGE })
        else some p.2) := by
  induction l generalizing ph with
  | nil => exact ⟨rfl, rfl⟩
  | cons p rest ih =>
    rcases p with ⟨i, z⟩
    by_cases hm : mel i = true
    · by_cases hk : z.health ≤ MELEE_DAMAGE
      · simp [combatLoop, contactTwice_no_touch, hm, hk, sub_nonpos, ih ph]
      · simp [combatLoop, contactTwice_no_touch, hm, hk, sub_nonpos, ih ph]
    · simp [combatLoop, contactTwice_no_touch, hm, ih ph]

theorem combatLoop_idle_spec (t : ℚ) (touch mel fd : Nat → Bool) (ph : Int)
    (l : List (Nat × ZState)) :
    (combatLoop t false touch mel fd ph l).zs.map (fun z => z.health) =
      l.map (fun p => p.2.health) ∧
    (combatLoop t false touch mel fd ph l).kills = 0 ∧
    (combatLoop t false touch mel fd ph l).sc = 0 := by
  induction l generalizing ph with
  | nil => exact ⟨rfl, rfl, rfl⟩
  | cons p rest ih =>
    rcases p with ⟨i, z⟩
    simp [combatLoop, contactTwice_health, ih (contactTwice ph z t (touch i)).1]

/-- C7: a single melee activation damages each hostile whose box intersects
the melee hitbox exactly once by MELEE_DAMAGE = 25 — over the whole zombie
loop the survivors are exactly the per-zombie result of subtracting 25 from
the hostiles in the hitbox (those dropping to 0 or below are removed) and
the Actor's health is untouched, while with the attack flag down the loop
changes no hostile's health.  Concretely a Tank at health 100 drops to
exactly 75 in the activation tick, which consumes the flag; a second
attack intent 0.2 time-units later (before ATTACK_COOLDOWN = 0.5 elapses)
arms no hitbox and the Tank's health stays 75 in the following tick. -/
theorem melee_single_application :
    (∀ (t : ℚ) (mel fd : Nat → Bool) (ph : Int) (l : List (Nat × ZState)),
      (combatLoop t true (fun _ => false) mel fd ph l).ph = ph ∧
      (combatLoop t true (fun _ => false) mel fd ph l).zs =
        l.filterMap (fun p =>
          if mel p.1 then
            (if p.2.health - MELEE_DAMAGE ≤ 0 then none
             else some { p.2 with health := p.2.health - MELEE_DAMAGE })
          else some p.2)) ∧
    (∀ (t : ℚ) (touch mel fd : Nat → Bool) (ph : Int) (l : List (Nat × ZState)),
      (combatLoop t false touch mel fd ph l).zs.map (fun z => z.health) =
        l.map (fun p => p.2.health)) ∧
    (frame sTank (envMelee 1)).zombies = [⟨ZType.TANK, 75, 0⟩] ∧
    (frame sTank (envMelee 1)).attacking = false ∧
    handleAttackKey (frame sTank (envMelee 1)) (6/5) = frame sTank (envMelee 1) ∧
    (frame (handleAttackKey (frame sTank (envMelee 1)) (6/5)) (envMelee (6/5))).zombies =
      [⟨ZType.TANK, 75, 0⟩] := by
  refine ⟨combatLoop_melee_spec, ?_, ?_, ?_, ?_, ?_⟩
  · intro t touch mel fd ph l
    exact (combatLoop_idle_spec t touch mel fd ph l).1
  · with_unfolding_all decide
  · with_unfolding_all decide
  · with_unfolding_all decide
  · with_unfolding_all decide

theorem foodLoop_spec (t : ℚ) (ft : Nat → Bool) (ph : Int) (l : List (Nat × FState)) :
    (foodLoop t ft ph l).2 = l.filterMap (fun p =>
      if t - p.2.spawnTime ≥ 10 then none
      else if ft p.1 then none else some p.2) ∧
    (foodLoop t ft ph l).1 = l.foldl (fun a p =>
      if t - p.2.spawnTime ≥ 10 then a
      else if ft p.1 then min (a + 20) 100 else a) ph := by
  induction l generalizing ph with
  | nil => exact ⟨rfl, rfl⟩
  | cons p rest ih =>
    rcases p with ⟨j, fd⟩
    by_cases he : t - fd.spawnTime ≥ 10
    · simp [foodLoop, he, ih ph]
    · by_cases htc : ft j = true
      · have hmin : (if ph + 20 > 100 then 100 else ph + 20) = min (ph + 20) 100 := by
          omega
        simp only [foodLoop, if_neg he, htc, if_true, List.filterMap_cons, List.foldl_cons,
          if_neg he, hmin]
        exact ⟨(ih _).1, (ih _).2⟩
      · simp [foodLoop, he, htc, ih ph]

/-- C9: when a pickup has, in the same tick, both outlived its fixed
10.0-unit lifetime and its box intersecting the Actor's, the expiry check
runs first: the pickup is erased with no health gain; on contact alone the
Actor's health rises by 20 clamped at 100; and each pickup is erased at
most once per pass — the survivor list is a filter of the input list.
Concretely at t = 20: a food spawned at 5 (expired) touching the player is
removed with health staying 90, while a food spawned at 15 touching the
player heals 90 to 100 (clamp) and 70 to 90. -/
theorem pickup_expiry_before_collect :
    (∀ (t : ℚ) (ft : Nat → Bool) (ph : Int) (l : List (Nat × FState)),
      (foodLoop t ft ph l).2 = l.filterMap (fun p =>
        if t - p.2.spawnTime ≥ 10 then none
        else if ft p.1 then none else some p.2) ∧
      (foodLoop t ft ph l).1 = l.foldl (fun a p =>
        if t - p.2.spawnTime ≥ 10 then a
        else if ft p.1 then min (a + 20) 100 else a) ph) ∧
    (frame (sFood 90 5) (envFood 20)).playerHealth = 90 ∧
    (frame (sFood 90 5) (envFood 20)).foods = [] ∧
    (frame (sFood 90 15) (envFood 20)).playerHealth = 100 ∧
    (frame (sFood 90 15) (envFood 20)).foods = [] ∧
    (frame (sFood 70 15) (envFood 20)).playerHealth = 90 := by
  refine ⟨foodLoop_spec, ?_, ?_, ?_, ?_, ?_⟩
  · with_unfolding_all decide
  · with_unfolding_all decide
  · with_unfolding_all decide
  · with_unfolding_all decide
  · with_unfolding_all decide

/-- C4: in every reachable run state the wave index never advances while
any hostile is alive or any of the current wave's spawn quota remains
unspawned — when a tick changes the wave, at the moment of the check the
live hostile list is empty and both the remaining-to-spawn and alive
counters are zero — and a tick moves the run to VICTORY only on the final
wave (TOTAL_WAVES = 5) with both counters zero and no live hostile. -/
theorem wave_advance_requires_cleared (s : RunState) (env : TickEnv) (h : Reachable s) :
    ((frame s env).wave ≠ s.wave →
      (frame s env).wave = s.wave + 1 ∧
      (preWave s env).zombies = [] ∧ (preWave s env).zombiesToSpawn = 0 ∧
      (preWave s env).waveZombiesRemaining = 0 ∧
      (frame s env).zombies = [] ∧ (frame s env).waveZombiesRemaining = 0) ∧
    (s.gameState ≠ GS.VICTORY → (frame s env).gameState = GS.VICTORY →
      s.wave = TOTAL_WAVES ∧ (frame s env).wave = TOTAL_WAVES ∧
      (frame s env).zombies = [] ∧ (frame s env).zombiesToSpawn = 0 ∧
      (frame s env).waveZombiesRemaining = 0) := by
  by_cases hp : s.gameState = GS.PLAYING
  case neg =>
    have hf : frame s env = s := by
      unfold frame
      rw [if_neg hp]
    rw [hf]
    exact ⟨fun hne => absurd rfl hne, fun hnv hv => absurd hv hnv⟩
  case pos =>
    have hf : frame s env = gameOverCheck (waveCheck (preWave s env)) env.fellOut := by
      unfold frame tick
      rw [if_pos hp]
    obtain ⟨hi1, hi2, hi3, hi4, hi5⟩ := inv_preWave s env (reachable_inv h)
    have hw := preWave_wave s env
    have hgs := preWave_gs s env
    obtain ⟨hg1, hg2, hg3, hg4⟩ := gameOverCheck_fields (waveCheck (preWave s env)) env.fellOut
    have hgg := gameOverCheck_gs (waveCheck (preWave s env)) env.fellOut
    have hwz := waveCheck_zombies (preWave s env)
    rcases waveCheck_cases (preWave s env) with ⟨hnz, hwc⟩ | ⟨hz0, hts0, hlt, hwc⟩ |
      ⟨hz0, hts0, heq, hwc⟩ | ⟨hz0, hts0, hnlt, hne5, hwc⟩
    · constructor
      · intro hne
        exfalso
        apply hne
        rw [hf, hg1, hwc, hw]
      · intro hnv hv
        exfalso
        rw [hf] at hv
        rcases hgg with hA | hA
        · rw [hA, hwc, hgs, hp] at hv
          exact absurd hv (by decide)
        · rw [hA] at hv
          exact absurd hv (by decide)
    · have hlen0 : (preWave s env).zombies.length = 0 := by omega
      have hpz : (preWave s env).zombies = [] := List.length_eq_zero.mp hlen0
      have hWa : (waveCheck (preWave s env)).wave = (preWave s env).wave + 1 := by rw [hwc]
      have hRa : (waveCheck (preWave s env)).waveZombiesRemaining =
          (preWave s env).waveZombiesRemaining := by rw [hwc]
      have hVa : (waveCheck (preWave s env)).gameState = (preWave s env).gameState := by
        rw [hwc]
      constructor
      · intro hne
        refine ⟨?_, hpz, hts0, hz0, ?_, ?_⟩
        · rw [hf, hg1, hWa, hw]
        · rw [hf, hg2, hwz, hpz]
        · rw [hf, hg4, hRa, hz0]
      · intro hnv hv
        exfalso
        rw [hf] at hv
        rcases hgg with hA | hA
        · rw [hA, hVa, hgs, hp] at hv
          exact absurd hv (by decide)
        · rw [hA] at hv
          exact absurd hv (by decide)
    · have hlen0 : (preWave s env).zombies.length = 0 := by omega
      have hpz : (preWave s env).zombies = [] := List.length_eq_zero.mp hlen0
      have hWa : (waveCheck (preWave s env)).wave = (preWave s env).wave := by rw [hwc]
      have hTa : (waveCheck (preWave s env)).zombiesToSpawn =
          (preWave s env).zombiesToSpawn := by rw [hwc]
      have hRa : (waveCheck (preWave s env)).waveZombiesRemaining =
          (preWave s env).waveZombiesRemaining := by rw [hwc]
      constructor
      · intro hne
        exfalso
        apply hne
        rw [hf, hg1, hWa, hw]
      · intro hnv hv
        refine ⟨?_, ?_, ?_, ?_, ?_⟩
        · rw [← hw]
          exact heq
        · rw [hf, hg1, hWa]
          exact heq
        · rw [hf, hg2, hwz, hpz]
        · rw [hf, hg3, hTa]
          exact hts0
        · rw [hf, hg4, hRa]
          exact hz0
    · exfalso
      omega

theorem wave_advance_requires_cleared_witness :
    ((frame initState envNull).wave ≠ initState.wave →
      (frame initState envNull).wave = initState.wave + 1 ∧
      (preWave initState envNull).zombies = [] ∧
      (preWave initState envNull).zombiesToSpawn = 0 ∧
      (preWave initState envNull).waveZombiesRemaining = 0 ∧
      (frame initState envNull).zombies = [] ∧
      (frame initState envNull).waveZombiesRemaining = 0) ∧
    (initState.gameState ≠ GS.VICTORY → (frame initState envNull).gameState = GS.VICTORY →
      initState.wave = TOTAL_WAVES ∧ (frame initState envNull).wave = TOTAL_WAVES ∧
      (frame initState envNull).zombies = [] ∧ (frame initState envNull).zombiesToSpawn = 0 ∧
      (frame initState envNull).waveZombiesRemaining = 0) :=
  wave_advance_requires_cleared initState envNull Reachable.init

end ZSim
